import Mathlib

/-!
Shallow embedding of `src/auditd/libaudit.c` (Android auditd netlink client).

The C file talks to the kernel over a raw netlink socket.  We model the
kernel/OS side as explicit schedules of syscall outcomes: a list of
`SendOutcome`s consumed by `sendto`, and a list of `RecvEvent`s consumed by
`recvfrom`.  The static `int16_t sequence` counter of `audit_send` and the
transmission log are threaded through a `World` record.  Machine integers
are modelled as `Int`/`Nat` with explicit `% 2^w` where the C code can
overflow (the `u32` casts and the `int16_t` increment).
-/

/-- errno EINTR = 4 (Linux). -/
def EINTR : Nat := 4

/-- errno EAGAIN = 11 (Linux). -/
def EAGAIN : Nat := 11

/-- errno EBADF = 9 (Linux). -/
def EBADF : Nat := 9

/-- errno EINVAL = 22 (Linux). -/
def EINVAL : Nat := 22

/-- errno EPROTO = 71 (Linux). -/
def EPROTO : Nat := 71

/-- errno EFBIG = 27 (Linux). -/
def EFBIG : Nat := 27

/-- errno EBADE = 52 (Linux). -/
def EBADE : Nat := 52

/-- errno EACCES = 13 (Linux). -/
def EACCES : Nat := 13

/-- netlink message type NLMSG_ERROR = 0x2 (linux/netlink.h). -/
def NLMSG_ERROR : Nat := 2

/-- audit message type AUDIT_GET = 1000 (linux/audit.h). -/
def AUDIT_GET : Nat := 1000

/-- audit message type AUDIT_SET = 1001 (linux/audit.h). -/
def AUDIT_SET : Nat := 1001

/-- audit message type AUDIT_SIGNAL_INFO = 1010 (linux/audit.h). -/
def AUDIT_SIGNAL_INFO : Nat := 1010

/-- audit message type AUDIT_LIST_RULES = 1013 (linux/audit.h). -/
def AUDIT_LIST_RULES : Nat := 1013

/-- netlink flag NLM_F_REQUEST = 1 (linux/netlink.h). -/
def NLM_F_REQUEST : Nat := 1

/-- netlink flag NLM_F_ACK = 4 (linux/netlink.h). -/
def NLM_F_ACK : Nat := 4

/-- NLMSG_HDRLEN: the aligned size of `struct nlmsghdr` = 16 bytes. -/
def NLMSG_HDRLEN : Nat := 16

/-- Modelled from the spec: `MAX_AUDIT_MESSAGE_LENGTH` is defined in the
repository header `libaudit.h`, which is not under `src/`; the spec fixes
only that it is a constant maximum of roughly 8 KiB.  We use the standard
value 8970 of the audit userspace headers.  All claims are parametric in
this bound. -/
def MAX_AUDIT_MESSAGE_LENGTH : Nat := 8970

/-- sizeof(struct audit_message) = NLMSG_HDRLEN + MAX_AUDIT_MESSAGE_LENGTH:
the receive buffer capacity (`rep->msg`).  The struct itself comes from the
repository header `libaudit.h` (a netlink header followed by a data array of
`MAX_AUDIT_MESSAGE_LENGTH` bytes). -/
def AUDIT_MESSAGE_SIZE : Nat := NLMSG_HDRLEN + MAX_AUDIT_MESSAGE_LENGTH

/-- sizeof(struct sockaddr_nl) = 12 bytes (linux/netlink.h). -/
def SOCKADDR_NL_SIZE : Nat := 12

/-- Modelled from the spec: the two defined log-split constants from the
repository header (not under `src/`); the spec says the enabled flag ranges
over exactly two constants OFF and ON.  Their concrete values are immaterial
to every claim. -/
def AUDIT_LOGSPLIT_OFF : Int := 0

/-- Modelled from the spec: see `AUDIT_LOGSPLIT_OFF`. -/
def AUDIT_LOGSPLIT_ON : Int := 1

/-- Modelled from the spec: the vendor-extension message type for toggling
log splitting, declared in the repository header (not under `src/`).  Its
concrete value is immaterial to every claim. -/
def AUDIT_LOGSPLIT_SET : Nat := 2010

/-- `(uint32_t)` cast of a C `int` value. -/
def u32 (i : Int) : Nat := (i % 4294967296).toNat

/-- `NLMSG_SPACE(size)` as computed by the C macro on an `unsigned int`:
align `size + NLMSG_HDRLEN` up to 4 bytes, all in 32-bit arithmetic. -/
def nlmsgSpace (size : Nat) : Nat :=
  (((size + NLMSG_HDRLEN) % 4294967296 + 3) / 4 * 4) % 4294967296

/-- `NLMSG_OK(nlh, len)`: the declared frame length `msgLen` is a valid
netlink frame for a receive of `recvLen` bytes. -/
def nlmsgOK (msgLen recvLen : Nat) : Bool :=
  NLMSG_HDRLEN ≤ recvLen && NLMSG_HDRLEN ≤ msgLen && msgLen ≤ recvLen

/-- `int16_t` wrap-around: the value the static counter holds after C's
`++sequence` produced `i` as a mathematical integer. -/
def int16wrap (i : Int) : Int := (i + 32768) % 65536 - 32768

/-- A datagram as `recvfrom` reports it: the declared netlink header fields
inside the receive buffer, the embedded error code (meaningful for
`NLMSG_ERROR` replies, where `rep->error->error` points into the payload),
the byte count `recvfrom` returned, and the sender-address metadata. -/
structure Datagram where
  nlmsg_len : Nat
  nlmsg_type : Nat
  nlmsg_seq : Nat
  errorCode : Int
  recvLen : Nat
  nl_pid : Nat
  addrLen : Nat
deriving DecidableEq

/-- One outcome of a `recvfrom` call: either failure with an errno, or a
datagram at the head of the socket queue. -/
inductive RecvEvent where
  | fail (errno : Nat)
  | dgram (d : Datagram)
deriving DecidableEq

/-- One outcome of a `sendto` call: the transport accepted `n` bytes, or the
call failed (returning -1) with an errno. -/
inductive SendOutcome where
  | accepted (n : Nat)
  | failed (errno : Nat)
deriving DecidableEq

/-- The discriminated view `set_internal_fields` selects from the header's
type field.  The C aliases union pointers into the receive buffer; only the
error view carries data the rest of the library reads. -/
inductive ReplyView where
  | errorView (code : Int)
  | statusView
  | rulesView
  | signalInfoView
  | messageView
deriving DecidableEq

/-- The decoded reply (`struct audit_reply` after `set_internal_fields`). -/
structure Reply where
  len : Nat
  type : Nat
  seq : Nat
  view : ReplyView
deriving DecidableEq

/-- `rep->error->error`, read only under the `NLMSG_ERROR` guard. -/
def replyErrCode (r : Reply) : Int :=
  match r.view with
  | .errorView c => c
  | _ => 0

/-- The netlink request header built by `audit_send`. -/
structure NlMsgHdr where
  nlmsg_len : Nat
  nlmsg_type : Nat
  nlmsg_flags : Nat
  nlmsg_seq : Nat
deriving DecidableEq

/-- The frame handed to `sendto`: header plus the transmitted slice of the
zero-initialised data region (`req.nlh.nlmsg_len` bytes are sent). -/
structure AuditMessage where
  nlh : NlMsgHdr
  data : List Nat
deriving DecidableEq

/-- GET_REPLY_BLOCKING / GET_REPLY_NONBLOCKING from the repository header. -/
inductive ReplyBlock where
  | blocking
  | nonblocking
deriving DecidableEq

/-- WAIT_NO / WAIT_YES from the repository header. -/
inductive RepWait where
  | waitNo
  | waitYes
deriving DecidableEq

/-- The `do { len = recvfrom(...) } while` loop of `audit_get_reply`:
retries while the call fails with EINTR, and yields the first other
outcome together with the schedule after that outcome.  `none` models the
loop never being handed a non-EINTR outcome. -/
def recvRetry : List RecvEvent → Option (RecvEvent × List RecvEvent)
  | [] => none
  | .fail e :: rest =>
      if e = EINTR then recvRetry rest else some (.fail e, rest)
  | .dgram d :: rest => some (.dgram d, rest)

/-- `set_internal_fields` (libaudit.c:46): validates the declared frame
length with `NLMSG_OK` against the received byte count; on failure returns
`-EFBIG` when the receive filled the buffer to capacity and `-EBADE`
otherwise; on success selects the view from the header's type field. -/
def set_internal_fields (d : Datagram) : Int × Option Reply :=
  if !nlmsgOK d.nlmsg_len d.recvLen then
    (if d.recvLen = AUDIT_MESSAGE_SIZE then -(EFBIG : Int) else -(EBADE : Int), none)
  else
    let v : ReplyView :=
      if d.nlmsg_type = NLMSG_ERROR then .errorView d.errorCode
      else if d.nlmsg_type = AUDIT_GET then .statusView
      else if d.nlmsg_type = AUDIT_LIST_RULES then .rulesView
      else if d.nlmsg_type = AUDIT_SIGNAL_INFO then .signalInfoView
      else .messageView
    (0, some ⟨d.nlmsg_len, d.nlmsg_type, d.nlmsg_seq, v⟩)

/-- `audit_get_reply` (libaudit.c:269) over a schedule of recv outcomes.
Returns the C result code, the decoded reply when one was produced, and the
remaining schedule (a peeked datagram stays at the head).  `none` models a
diverging retry loop. -/
def audit_get_reply (fd : Int) (blk : ReplyBlock) (peek : Bool)
    (sched : List RecvEvent) : Option (Int × Option Reply × List RecvEvent) :=
  if fd < 0 then some (-(EBADF : Int), none, sched)
  else
    match recvRetry sched with
    | none => none
    | some (.fail e, rest) =>
        if blk = .nonblocking ∧ e = EAGAIN then some (0, none, rest)
        else some (-(e : Int), none, rest)
    | some (.dgram d, rest) =>
        let rest' := if peek then .dgram d :: rest else rest
        if d.addrLen ≠ SOCKADDR_NL_SIZE then some (-(EPROTO : Int), none, rest')
        else if d.nl_pid ≠ 0 then some (-(EINVAL : Int), none, rest')
        else
          let (rc, rep) := set_internal_fields d
          some (rc, rep, rest')

/-- `get_ack` (libaudit.c:97): peeks the next reply; if it is an
`NLMSG_ERROR` reply, consumes it with a second (result-ignored) read — in
the single-threaded model that read returns the same datagram the peek saw,
so the embedded code read afterwards is the peeked one — and surfaces a
nonzero embedded code negated; any other reply type is left queued. -/
def get_ack (fd : Int) (sched : List RecvEvent) :
    Option (Int × List RecvEvent) :=
  if fd < 0 then some (-(EINVAL : Int), sched)
  else
    match audit_get_reply fd .blocking true sched with
    | none => none
    | some (rc, rep?, s1) =>
      if rc < 0 then some (rc, s1)
      else
        match rep? with
        | none => some (0, s1)
        | some rep =>
          if rep.type = NLMSG_ERROR then
            match audit_get_reply fd .blocking false s1 with
            | none => none
            | some (_, _, s2) =>
                if replyErrCode rep ≠ 0 then some (-(replyErrCode rep), s2)
                else some (0, s2)
          else some (0, s1)

/-- The zero-initialised request data region after the optional `memcpy`,
restricted to the transmitted `nlmsg_len - NLMSG_HDRLEN` bytes (only
`req.nlh.nlmsg_len` bytes reach `sendto`). -/
def dataRegion (data : Option (List Nat)) (size : Nat) : List Nat :=
  let n := nlmsgSpace size - NLMSG_HDRLEN
  match data with
  | none => List.replicate n 0
  | some bytes =>
      if size = 0 then List.replicate n 0
      else bytes.take size ++ List.replicate (n - size) 0

/-- The request frame `audit_send` builds (libaudit.c:153-156,188):
`nlmsg_len = NLMSG_SPACE(size)`, the type truncated to the u16 field,
`flags = NLM_F_REQUEST | NLM_F_ACK`, and the u32 image of the int16
sequence value. -/
def buildRequest (type : Nat) (data : Option (List Nat)) (size : Nat)
    (seq : Int) : AuditMessage :=
  ⟨⟨nlmsgSpace size, type % 65536, NLM_F_REQUEST ||| NLM_F_ACK, u32 seq⟩,
   dataRegion data size⟩

/-- The `do { rc = sendto(...) } while (rc < 0 && errno == EINTR)` loop:
consumes schedule entries while they are EINTR failures, logging one
`sendto` invocation of `frame` per iteration; yields `(rc, errno)` of the
first other outcome.  `none` models a diverging retry loop. -/
def sendtoRetry (frame : AuditMessage) :
    List SendOutcome → List AuditMessage →
    Option ((Int × Nat) × List SendOutcome × List AuditMessage)
  | [], _ => none
  | .accepted n :: rest, log => some ((Int.ofNat n, 0), rest, log ++ [frame])
  | .failed e :: rest, log =>
      if e = EINTR then sendtoRetry frame rest (log ++ [frame])
      else some ((-1, e), rest, log ++ [frame])

/-- The process-wide state `audit_send` touches: the static `int16_t`
sequence counter, the two syscall schedules, and the log of frames passed
to `sendto` (the observable transmissions). -/
structure World where
  sequence : Int
  sendSched : List SendOutcome
  recvSched : List RecvEvent
  sent : List AuditMessage
deriving DecidableEq

/-- The `out:` epilogue of `audit_send` (libaudit.c:213-218): reset the
counter to zero once it has gone negative. -/
def rollover (w : World) : World :=
  if w.sequence < 0 then { w with sequence := 0 } else w

/-- `audit_send` (libaudit.c:140): validate the fd and the framed size,
build the request, assign `++sequence`, transmit with interrupt-retry,
check for a partial write before the (dead) negative-rc branch, then wait
for the ack and map an ack success to the sequence number; the epilogue
resets a negative counter. -/
def audit_send (fd : Int) (type : Nat) (data : Option (List Nat))
    (size : Nat) (w : World) : Option (Int × World) :=
  if fd < 0 then some (-(EBADF : Int), w)
  else if MAX_AUDIT_MESSAGE_LENGTH < nlmsgSpace size then
    some (-(EINVAL : Int), w)
  else
    let seq := int16wrap (w.sequence + 1)
    let frame := buildRequest type data size seq
    match sendtoRetry frame w.sendSched [] with
    | none => none
    | some ((rc, errn), sRest, log) =>
      let w1 : World :=
        { sequence := seq, sendSched := sRest, recvSched := w.recvSched,
          sent := w.sent ++ log }
      if u32 rc ≠ frame.nlh.nlmsg_len then some (-(EPROTO : Int), rollover w1)
      else if rc < 0 then some (-(errn : Int), rollover w1)
      else
        match get_ack fd w1.recvSched with
        | none => none
        | some (ackRc, rRest) =>
          let w2 := { w1 with recvSched := rRest }
          some (if ackRc = 0 then seq else ackRc, rollover w2)

/-- Little-endian byte image of a u32 field (for modelled status payloads). -/
def u32le (n : Nat) : List Nat :=
  [n % 256, n / 256 % 256, n / 65536 % 256, n / 16777216 % 256]

/-- Modelled from the spec: the log-split status payload is a struct with a
single u32 `enabled` field (`{enabled flag}` per the spec's data model);
the struct declaration lives in the repository header, not under `src/`. -/
def logsplitPayload (enabled : Int) : List Nat := u32le (u32 enabled)

/-- `audit_set_logsplit` (libaudit.c:333): reject an enabled value other
than the two defined constants with `-EINVAL` before any I/O; otherwise
send the status payload and, unless WAIT_NO, drain one non-blocking reply
best-effort. -/
def audit_set_logsplit (fd : Int) (enabled : Int) (wmode : RepWait)
    (w : World) : Option (Int × World) :=
  if enabled ≠ AUDIT_LOGSPLIT_OFF ∧ enabled ≠ AUDIT_LOGSPLIT_ON then
    some (-(EINVAL : Int), w)
  else
    match audit_send fd AUDIT_LOGSPLIT_SET (some (logsplitPayload enabled)) 4 w with
    | none => none
    | some (rc, w1) =>
      if rc < 0 then some (rc, w1)
      else if wmode ≠ .waitNo then
        match audit_get_reply fd .nonblocking false w1.recvSched with
        | none => none
        | some (_, _, s2) => some (0, { w1 with recvSched := s2 })
      else some (0, w1)

/-- A clean kernel ack: an `NLMSG_ERROR` reply with embedded code 0, a
valid frame and the kernel's address metadata. -/
def goodAck : Datagram := ⟨20, NLMSG_ERROR, 0, 0, 20, 0, 12⟩

/-! ## Helper lemmas -/

theorem rollover_mk (q : Int) (a : List SendOutcome) (b : List RecvEvent)
    (c : List AuditMessage) :
    rollover ⟨q, a, b, c⟩ = ⟨if q < 0 then 0 else q, a, b, c⟩ := by
  by_cases h : q < 0 <;> simp [rollover, h]

theorem recvRetry_replicate (k : Nat) (s : List RecvEvent) :
    recvRetry (List.replicate k (.fail EINTR) ++ s) = recvRetry s := by
  induction k with
  | zero => rfl
  | succ n ih => simpa [List.replicate_succ, recvRetry] using ih

theorem u32_ofNat (n : Nat) (h : n < 4294967296) : u32 (Int.ofNat n) = n := by
  have hn : Int.ofNat n = (n : Int) := rfl
  unfold u32
  rw [hn, Int.emod_eq_of_lt (by positivity) (by exact_mod_cast h)]
  simp

theorem int16wrap_step (s : Int) (h0 : 0 ≤ s) (h1 : s ≤ 32767) :
    int16wrap (s + 1) = if s = 32767 then -32768 else s + 1 := by
  unfold int16wrap
  rcases eq_or_ne s 32767 with h | h
  · subst h
    decide
  · rw [if_neg h]
    omega

theorem audit_get_reply_dgram (fd : Int) (blk : ReplyBlock) (pk : Bool)
    (d : Datagram) (rest : List RecvEvent) (hfd : 0 ≤ fd)
    (ha : d.addrLen = SOCKADDR_NL_SIZE) (hp : d.nl_pid = 0) :
    audit_get_reply fd blk pk (.dgram d :: rest)
      = some ((set_internal_fields d).1, (set_internal_fields d).2,
              if pk then .dgram d :: rest else rest) := by
  unfold audit_get_reply recvRetry
  rw [if_neg (by omega)]
  simp [ha, hp]

theorem set_internal_fields_goodAck :
    set_internal_fields goodAck = (0, some ⟨20, NLMSG_ERROR, 0, .errorView 0⟩) :=
  rfl

theorem get_ack_goodAck (fd : Int) (r : List RecvEvent) (hfd : 0 ≤ fd) :
    get_ack fd (.dgram goodAck :: r) = some (0, r) := by
  unfold get_ack
  rw [if_neg (by omega)]
  rw [audit_get_reply_dgram fd .blocking true goodAck r hfd rfl rfl,
      set_internal_fields_goodAck]
  simp only [NLMSG_ERROR, if_true, reduceIte]
  rw [audit_get_reply_dgram fd .blocking false goodAck r hfd rfl rfl,
      set_internal_fields_goodAck]
  simp [replyErrCode]

theorem audit_send_clean (fd : Int) (type : Nat) (data : Option (List Nat))
    (size : Nat) (s : Int) (sR : List SendOutcome) (rR : List RecvEvent)
    (L : List AuditMessage) (hfd : 0 ≤ fd)
    (hsz : nlmsgSpace size ≤ MAX_AUDIT_MESSAGE_LENGTH) :
    audit_send fd type data size
        ⟨s, .accepted (nlmsgSpace size) :: sR, .dgram goodAck :: rR, L⟩
      = some (int16wrap (s + 1),
          ⟨if int16wrap (s + 1) < 0 then 0 else int16wrap (s + 1), sR, rR,
           L ++ [buildRequest type data size (int16wrap (s + 1))]⟩) := by
  have hsz' : nlmsgSpace size ≤ 8970 := hsz
  unfold audit_send
  rw [if_neg (by omega), if_neg (by omega)]
  simp only [sendtoRetry, List.nil_append]
  rw [u32_ofNat (nlmsgSpace size) (by omega)]
  simp only [buildRequest, ne_eq, not_true_eq_false, reduceIte]
  rw [get_ack_goodAck fd rR hfd]
  simp [rollover_mk]

/-! ## Claim theorems -/

/-- C1 (code divergence): after a fully transmitted frame, a pending
`NLMSG_ERROR` reply with embedded code 0 does return the issued sequence
number, and a reply of another type is left queued; but for the nonzero
embedded code -13 (the kernel embeds negative errnos, and the spec's
scenario says the call must report KernelError(-13)), `get_ack` returns the
negation of the embedded code, so `audit_send` returns +13 — a positive
value indistinguishable from a successful sequence number (the issued
sequence here was 5) instead of an error. -/
theorem C1_embedded_error_code_negated :
    audit_send 3 AUDIT_SET none 0
        ⟨4, [.accepted 16], [.dgram ⟨20, NLMSG_ERROR, 5, -13, 20, 0, 12⟩], []⟩
      = some (13, ⟨5, [], [], [⟨⟨16, AUDIT_SET, 5, 5⟩, []⟩]⟩)
    ∧ (0 : Int) < 13 ∧ (13 : Int) ≠ 5 := by
  decide

/-- C2 (code divergence): a transport failure other than interrupt (here
`sendto` fails with errno EACCES = 13) is reported as `-EPROTO`, not as the
OS error code `-EACCES`: the partial-write check `(uint32_t) rc !=
req.nlh.nlmsg_len` precedes the `rc < 0` branch, and `(uint32_t) -1` never
equals the frame length, so the branch that would surface `-errno` is
unreachable. -/
theorem C2_transport_error_masked :
    audit_send 3 AUDIT_SET none 0 ⟨0, [.failed EACCES], [], []⟩
      = some (-(EPROTO : Int), ⟨1, [], [], [⟨⟨16, AUDIT_SET, 5, 1⟩, []⟩]⟩)
    ∧ -(EPROTO : Int) ≠ -(EACCES : Int) := by
  decide

/-- C3 (counterexample): with the counter holding the maximum positive
16-bit value 32767, the next send call does NOT issue sequence 0: the
increment wraps to -32768, which is transmitted in the frame (as the u32
image 4294934528) and returned to the caller as the negative result -32768;
only the epilogue then resets the counter to 0, so the counter did go
negative and sequence 0 is never issued. -/
theorem C3_wrap_counterexample :
    audit_send 3 AUDIT_SET none 0 ⟨32767, [.accepted 16], [.dgram goodAck], []⟩
      = some (-32768, ⟨0, [], [], [⟨⟨16, AUDIT_SET, 5, 4294934528⟩, []⟩]⟩)
    ∧ (-32768 : Int) ≠ 0 ∧ (-32768 : Int) < 0 := by
  decide

/-- C3 (amended): on a clean transport (full write, clean kernel ack),
sequence numbers issued by successive send calls strictly increase by 1
starting from 1 on a fresh counter; when the counter holds the maximum
positive 16-bit value 32767, the next call wraps to -32768, transmits and
returns that negative value, and the epilogue resets the counter to 0 (so
the following call issues 1; sequence 0 itself is never issued). -/
theorem C3_amended_wrap (fd : Int) (type : Nat) (data : Option (List Nat))
    (size : Nat) (s : Int) (sR : List SendOutcome) (rR : List RecvEvent)
    (L : List AuditMessage) (hfd : 0 ≤ fd)
    (hsz : nlmsgSpace size ≤ MAX_AUDIT_MESSAGE_LENGTH)
    (h0 : 0 ≤ s) (h1 : s ≤ 32767) :
    audit_send fd type data size
        ⟨s, .accepted (nlmsgSpace size) :: sR, .dgram goodAck :: rR, L⟩
      = some (if s = 32767 then -32768 else s + 1,
          ⟨if s = 32767 then 0 else s + 1, sR, rR,
           L ++ [buildRequest type data size
                  (if s = 32767 then -32768 else s + 1)]⟩) := by
  rw [audit_send_clean fd type data size s sR rR L hfd hsz,
      int16wrap_step s h0 h1]
  rcases eq_or_ne s 32767 with h | h
  · subst h
    simp
  · simp only [if_neg h]
    rw [if_neg (show ¬(s + 1 < 0) by omega)]

/-- C3 witness: a concrete clean call below the wrap point issues the
successor sequence number. -/
theorem C3_amended_wrap_witness :
    audit_send 3 AUDIT_SET none 0
        ⟨32766, [.accepted (nlmsgSpace 0)], [.dgram goodAck], []⟩
      = some (32767, ⟨32767, [], [], [buildRequest AUDIT_SET none 0 32767]⟩) := by
  simpa using
    C3_amended_wrap 3 AUDIT_SET none 0 32766 [] [] []
      (by decide) (by decide) (by decide) (by decide)

/-- C4: an invalid (negative) handle makes `audit_send` return the bad-file
code and an oversize framed payload makes it return `-EINVAL` (both are the
spec's InvalidArgument class), in each case with the world returned
unchanged: the sequence counter is not incremented, no frame is logged as
transmitted and neither syscall schedule is consumed. -/
theorem C4_validation_before_sequencing (fd : Int) (type : Nat)
    (data : Option (List Nat)) (size : Nat) (w : World) :
    (fd < 0 → audit_send fd type data size w = some (-(EBADF : Int), w)) ∧
    (0 ≤ fd → MAX_AUDIT_MESSAGE_LENGTH < nlmsgSpace size →
      audit_send fd type data size w = some (-(EINVAL : Int), w)) := by
  constructor
  · intro h
    unfold audit_send
    rw [if_pos h]
  · intro h1 h2
    unfold audit_send
    rw [if_neg (by omega), if_pos h2]

/-- C4 witness: a negative handle and a payload whose framed size 9016
exceeds 8970, each on a concrete world, leave that world untouched. -/
theorem C4_witness :
    audit_send (-1) AUDIT_SET none 0 ⟨4, [], [], []⟩
      = some (-(EBADF : Int), ⟨4, [], [], []⟩)
    ∧ audit_send 3 AUDIT_SET none 9000 ⟨4, [], [], []⟩
      = some (-(EINVAL : Int), ⟨4, [], [], []⟩) :=
  ⟨(C4_validation_before_sequencing (-1) AUDIT_SET none 0 ⟨4, [], [], []⟩).1
      (by decide),
   (C4_validation_before_sequencing 3 AUDIT_SET none 9000 ⟨4, [], [], []⟩).2
      (by decide) (by decide)⟩

/-- C5 (counterexample): a spoofed datagram (nonzero sender pid 7) is
rejected by `audit_get_reply` with `-EINVAL` — the very same numeric code
the library uses for InvalidArgument rejections (here
`audit_set_logsplit` with an invalid enabled value), so the rejection is
not an error class distinct from InvalidArgument. -/
theorem C5_same_code_counterexample :
    audit_get_reply 3 .blocking false [.dgram ⟨20, NLMSG_ERROR, 1, 0, 20, 7, 12⟩]
      = some (-(EINVAL : Int), none, [])
    ∧ audit_set_logsplit 3 7 .waitNo ⟨0, [], [], []⟩
      = some (-(EINVAL : Int), ⟨0, [], [], []⟩) := by
  decide

/-- C5 (amended): `audit_get_reply` rejects every datagram whose reported
sender pid is nonzero, regardless of the datagram's content, with
`-EINVAL` (numerically the same code as InvalidArgument, not a distinct
class), and rejects a sender address length that does not match the kernel
address structure size with `-EPROTO`. -/
theorem C5_amended_spoof_rejection :
    (∀ (fd : Int) (blk : ReplyBlock) (pk : Bool) (d : Datagram)
        (rest : List RecvEvent),
        0 ≤ fd → d.addrLen = SOCKADDR_NL_SIZE → d.nl_pid ≠ 0 →
        audit_get_reply fd blk pk (.dgram d :: rest)
          = some (-(EINVAL : Int), none,
                  if pk then .dgram d :: rest else rest)) ∧
    (∀ (fd : Int) (blk : ReplyBlock) (pk : Bool) (d : Datagram)
        (rest : List RecvEvent),
        0 ≤ fd → d.addrLen ≠ SOCKADDR_NL_SIZE →
        audit_get_reply fd blk pk (.dgram d :: rest)
          = some (-(EPROTO : Int), none,
                  if pk then .dgram d :: rest else rest)) := by
  constructor
  · intro fd blk pk d rest hfd ha hp
    unfold audit_get_reply recvRetry
    rw [if_neg (by omega)]
    simp [ha, hp]
  · intro fd blk pk d rest hfd ha
    unfold audit_get_reply recvRetry
    rw [if_neg (by omega)]
    simp [ha]

/-- C5 witness: a concrete spoofed datagram and a concrete short-address
datagram, each rejected with the stated code. -/
theorem C5_amended_witness :
    audit_get_reply 3 .blocking false [.dgram ⟨20, NLMSG_ERROR, 1, 0, 20, 9, 12⟩]
      = some (-(EINVAL : Int), none, [])
    ∧ audit_get_reply 3 .blocking false [.dgram ⟨20, NLMSG_ERROR, 1, 0, 20, 0, 10⟩]
      = some (-(EPROTO : Int), none, []) := by
  constructor
  · simpa using
      C5_amended_spoof_rejection.1 3 .blocking false
        ⟨20, NLMSG_ERROR, 1, 0, 20, 9, 12⟩ [] (by decide) (by decide) (by decide)
  · simpa using
      C5_amended_spoof_rejection.2 3 .blocking false
        ⟨20, NLMSG_ERROR, 1, 0, 20, 0, 10⟩ [] (by decide) (by decide)

/-- C6: a non-blocking receive whose next outcome is would-block (EAGAIN)
returns success (0) with no reply decoded — never an error — and in
blocking mode any number of interrupt (EINTR) outcomes before the next
outcome is transparently absorbed: the receive behaves exactly as if the
interrupts had not happened. -/
theorem C6_nonblocking_empty_and_interrupt_retry :
    (∀ (fd : Int) (pk : Bool) (rest : List RecvEvent), 0 ≤ fd →
        audit_get_reply fd .nonblocking pk (.fail EAGAIN :: rest)
          = some (0, none, rest)) ∧
    (∀ (fd : Int) (pk : Bool) (k : Nat) (sched : List RecvEvent), 0 ≤ fd →
        audit_get_reply fd .blocking pk
            (List.replicate k (.fail EINTR) ++ sched)
          = audit_get_reply fd .blocking pk sched) := by
  constructor
  · intro fd pk rest hfd
    unfold audit_get_reply recvRetry
    rw [if_neg (by omega)]
    simp [EAGAIN, EINTR]
  · intro fd pk k sched hfd
    unfold audit_get_reply
    rw [if_neg (by omega), if_neg (by omega), recvRetry_replicate]

/-- C6 witness: a would-block outcome on a concrete socket returns an empty
success, and two interrupts before a concrete datagram change nothing. -/
theorem C6_witness :
    audit_get_reply 3 .nonblocking false [.fail EAGAIN] = some (0, none, [])
    ∧ audit_get_reply 3 .blocking false
        (List.replicate 2 (.fail EINTR) ++ [.dgram goodAck])
      = audit_get_reply 3 .blocking false [.dgram goodAck] :=
  ⟨C6_nonblocking_empty_and_interrupt_retry.1 3 false [] (by decide),
   C6_nonblocking_empty_and_interrupt_retry.2 3 false 2 [.dgram goodAck]
     (by decide)⟩

/-- C7: a datagram from the kernel (pid 0, correct address length) whose
declared frame length fails the netlink validity rule `NLMSG_OK` is
rejected with `-EFBIG` (TooLarge) exactly when the received byte count
equals the receive buffer capacity, and with `-EBADE` (Malformed)
otherwise — the spec's ProtocolError classification. -/
theorem C7_bad_frame_classification (fd : Int) (blk : ReplyBlock) (pk : Bool)
    (d : Datagram) (rest : List RecvEvent) (hfd : 0 ≤ fd)
    (ha : d.addrLen = SOCKADDR_NL_SIZE) (hp : d.nl_pid = 0)
    (hbad : nlmsgOK d.nlmsg_len d.recvLen = false) :
    audit_get_reply fd blk pk (.dgram d :: rest)
      = some ((if d.recvLen = AUDIT_MESSAGE_SIZE then -(EFBIG : Int)
               else -(EBADE : Int)),
              none, if pk then .dgram d :: rest else rest) := by
  rw [audit_get_reply_dgram fd blk pk d rest hfd ha hp]
  unfold set_internal_fields
  rw [hbad]
  simp

/-- C7 witness: a declared frame length of 10 (below the header size) with
the receive buffer filled to its 8986-byte capacity is rejected TooLarge. -/
theorem C7_witness :
    audit_get_reply 3 .blocking false
        [.dgram ⟨10, NLMSG_ERROR, 1, 0, 8986, 0, 12⟩]
      = some (-(EFBIG : Int), none, []) := by
  simpa using
    C7_bad_frame_classification 3 .blocking false
      ⟨10, NLMSG_ERROR, 1, 0, 8986, 0, 12⟩ [] (by decide) (by decide)
      (by decide) (by decide)

/-- C8: `audit_set_logsplit` with an enabled value other than the two
defined constants returns `-EINVAL` with the world unchanged: the sequence
counter is untouched and no syscall schedule is consumed — no I/O occurs. -/
theorem C8_logsplit_invalid_argument (fd : Int) (enabled : Int)
    (wmode : RepWait) (w : World) (h1 : enabled ≠ AUDIT_LOGSPLIT_OFF)
    (h2 : enabled ≠ AUDIT_LOGSPLIT_ON) :
    audit_set_logsplit fd enabled wmode w = some (-(EINVAL : Int), w) := by
  unfold audit_set_logsplit
  rw [if_pos ⟨h1, h2⟩]

/-- C8 witness: enabled value 7 on a concrete world is rejected with the
world unchanged. -/
theorem C8_witness :
    audit_set_logsplit 3 7 .waitYes ⟨5, [], [], []⟩
      = some (-(EINVAL : Int), ⟨5, [], [], []⟩) :=
  C8_logsplit_invalid_argument 3 7 .waitYes ⟨5, [], [], []⟩
    (by decide) (by decide)

theorem rollover_sent (w : World) : (rollover w).sent = w.sent := by
  unfold rollover
  split <;> rfl

theorem sendtoRetry_log_frames (frame : AuditMessage) :
    ∀ (sched : List SendOutcome) (log : List AuditMessage) (x : Int × Nat)
      (rest : List SendOutcome) (log' : List AuditMessage),
      sendtoRetry frame sched log = some (x, rest, log') →
      log' ≠ [] ∧ ∀ f ∈ log', f ∈ log ∨ f = frame := by
  intro sched
  induction sched with
  | nil =>
    intro log x rest log' h
    simp [sendtoRetry] at h
  | cons e tail ih =>
    intro log x rest log' h
    cases e with
    | accepted n =>
      simp only [sendtoRetry, Option.some.injEq, Prod.mk.injEq] at h
      obtain ⟨-, -, hlog⟩ := h
      subst hlog
      refine ⟨by simp, ?_⟩
      intro f hf
      rcases List.mem_append.mp hf with h1 | h1
      · exact Or.inl h1
      · exact Or.inr (List.mem_singleton.mp h1)
    | failed er =>
      simp only [sendtoRetry] at h
      rcases eq_or_ne er EINTR with he | he
      · rw [if_pos he] at h
        obtain ⟨hne, hmem⟩ := ih (log ++ [frame]) x rest log' h
        refine ⟨hne, ?_⟩
        intro f hf
        rcases hmem f hf with h1 | h1
        · rcases List.mem_append.mp h1 with h2 | h2
          · exact Or.inl h2
          · exact Or.inr (List.mem_singleton.mp h2)
        · exact Or.inr h1
      · rw [if_neg he] at h
        simp only [Option.some.injEq, Prod.mk.injEq] at h
        obtain ⟨-, -, hlog⟩ := h
        subst hlog
        refine ⟨by simp, ?_⟩
        intro f hf
        rcases List.mem_append.mp hf with h1 | h1
        · exact Or.inl h1
        · exact Or.inr (List.mem_singleton.mp h1)

/-- C9: whenever `audit_send` passes validation (valid handle, framed size
within bound) and completes, every frame it handed to the transport has a
header length equal to the alignment-rounded size of header plus payload,
the requested type, and flags `NLM_F_REQUEST | NLM_F_ACK` — and at least
one such frame was transmitted. -/
theorem C9_frame_header_fields (fd : Int) (type : Nat)
    (data : Option (List Nat)) (size : Nat) (w : World) (r : Int) (w' : World)
    (hfd : 0 ≤ fd) (htype : type < 65536)
    (hsz : nlmsgSpace size ≤ MAX_AUDIT_MESSAGE_LENGTH) (hsent : w.sent = [])
    (h : audit_send fd type data size w = some (r, w')) :
    w'.sent ≠ [] ∧ ∀ f ∈ w'.sent,
      f.nlh.nlmsg_len = nlmsgSpace size ∧ f.nlh.nlmsg_type = type ∧
      f.nlh.nlmsg_flags = NLM_F_REQUEST ||| NLM_F_ACK := by
  unfold audit_send at h
  rw [if_neg (by omega), if_neg (by omega)] at h
  have hfields :
      ∀ f, f = buildRequest type data size (int16wrap (w.sequence + 1)) →
        f.nlh.nlmsg_len = nlmsgSpace size ∧ f.nlh.nlmsg_type = type ∧
        f.nlh.nlmsg_flags = NLM_F_REQUEST ||| NLM_F_ACK := by
    intro f hf
    subst hf
    exact ⟨rfl, Nat.mod_eq_of_lt htype, rfl⟩
  simp only [] at h
  cases hst : sendtoRetry (buildRequest type data size
      (int16wrap (w.sequence + 1))) w.sendSched [] with
  | none =>
    rw [hst] at h
    cases h
  | some v =>
    obtain ⟨⟨rc, errn⟩, sRest, log⟩ := v
    rw [hst] at h
    obtain ⟨hne, hmem⟩ := sendtoRetry_log_frames _ _ _ _ _ _ hst
    have hlog : ∀ f ∈ log, f = buildRequest type data size
        (int16wrap (w.sequence + 1)) := by
      intro f hf
      rcases hmem f hf with h1 | h1
      · cases h1
      · exact h1
    have hsent' : ∀ W, w' = rollover W → W.sent = w.sent ++ log →
        w'.sent ≠ [] ∧ ∀ f ∈ w'.sent,
          f.nlh.nlmsg_len = nlmsgSpace size ∧ f.nlh.nlmsg_type = type ∧
          f.nlh.nlmsg_flags = NLM_F_REQUEST ||| NLM_F_ACK := by
      intro W hW hWs
      have hws : w'.sent = log := by
        rw [hW, rollover_sent, hWs, hsent, List.nil_append]
      refine ⟨by rw [hws]; exact hne, ?_⟩
      intro f hf
      rw [hws] at hf
      exact hfields f (hlog f hf)
    simp only at h
    split at h
    · exact hsent' _ (by cases h; rfl) rfl
    · split at h
      · exact hsent' _ (by cases h; rfl) rfl
      · cases hga : get_ack fd w.recvSched with
        | none =>
          rw [hga] at h
          cases h
        | some p =>
          obtain ⟨ackRc, rRest⟩ := p
          rw [hga] at h
          exact hsent' _ (by cases h; rfl) rfl

/-- C9 witness: a concrete in-bounds send logs exactly one frame, carrying
the aligned length, the requested type and the two flags. -/
theorem C9_witness :
    ([⟨⟨16, AUDIT_SET, 5, 1⟩, []⟩] : List AuditMessage) ≠ [] ∧
    ∀ f ∈ ([⟨⟨16, AUDIT_SET, 5, 1⟩, []⟩] : List AuditMessage),
      f.nlh.nlmsg_len = nlmsgSpace 0 ∧ f.nlh.nlmsg_type = AUDIT_SET ∧
      f.nlh.nlmsg_flags = NLM_F_REQUEST ||| NLM_F_ACK :=
  C9_frame_header_fields 3 AUDIT_SET none 0
    ⟨0, [.accepted 16], [.dgram goodAck], []⟩ 1
    ⟨1, [], [], [⟨⟨16, AUDIT_SET, 5, 1⟩, []⟩]⟩
    (by decide) (by decide) (by decide) rfl (by decide)

/-- C10: a send with a null data pointer but a nonzero in-bounds size is
not rejected: the call succeeds (returning the issued sequence number) and
the transmitted frame carries the aligned header length and an all-zero
payload region of at least `size` bytes (the request buffer was
zero-initialised and the copy skipped). -/
theorem C10_null_data_zero_payload (fd : Int) (type : Nat) (size : Nat)
    (s : Int) (sR : List SendOutcome) (rR : List RecvEvent)
    (L : List AuditMessage) (hfd : 0 ≤ fd)
    (hsz : nlmsgSpace size ≤ MAX_AUDIT_MESSAGE_LENGTH) (hpos : 0 < size)
    (hs0 : 0 ≤ s) (hs1 : s < 32767)
    (hfit : size + NLMSG_HDRLEN + 3 < 4294967296) :
    audit_send fd type none size
        ⟨s, .accepted (nlmsgSpace size) :: sR, .dgram goodAck :: rR, L⟩
      = some (s + 1,
          ⟨s + 1, sR, rR,
           L ++ [⟨⟨nlmsgSpace size, type % 65536,
                   NLM_F_REQUEST ||| NLM_F_ACK, u32 (s + 1)⟩,
                  List.replicate (nlmsgSpace size - NLMSG_HDRLEN) 0⟩]⟩)
    ∧ 0 < s + 1 ∧ size ≤ nlmsgSpace size - NLMSG_HDRLEN := by
  refine ⟨?_, by omega, ?_⟩
  · rw [audit_send_clean fd type none size s sR rR L hfd hsz,
        int16wrap_step s hs0 (by omega)]
    simp only [if_neg (show s ≠ 32767 by omega)]
    rw [if_neg (show ¬(s + 1 < 0) by omega)]
    rfl
  · simp only [nlmsgSpace, NLMSG_HDRLEN] at hfit ⊢
    omega

/-- C10 witness: size 3 with no data transmits a 20-byte frame whose
4-byte data region is all zeros, and the call succeeds with sequence 1. -/
theorem C10_witness :
    audit_send 3 AUDIT_SET none 3
        ⟨0, [.accepted (nlmsgSpace 3)], [.dgram goodAck], []⟩
      = some (1,
          ⟨1, [], [],
           [⟨⟨nlmsgSpace 3, AUDIT_SET % 65536,
              NLM_F_REQUEST ||| NLM_F_ACK, u32 1⟩,
             List.replicate (nlmsgSpace 3 - NLMSG_HDRLEN) 0⟩]⟩)
    ∧ (0 : Int) < 1 ∧ 3 ≤ nlmsgSpace 3 - NLMSG_HDRLEN := by
  simpa using
    C10_null_data_zero_payload 3 AUDIT_SET 3 0 [] [] []
      (by decide) (by decide) (by decide) (by decide) (by decide) (by decide)
